import Mathlib

/-!
Verification development for the configuration loader
`src/api/terraform/python/openai_api/common/conf.py` of the `aws-openai`
repository.

The module defines a pydantic `Settings(BaseSettings)` model: a registry of
defaults (`SettingsDefaults`), two coercion helpers
(`empty_str_to_bool_default`, `empty_str_to_int_default`), a collection of
pre-validators attached with `@validator(..., pre=True)`, and a module-level
construction `settings = Settings()` that wraps any `ValidationError` into an
aggregate configuration error.

The embedding below follows pydantic v1 validator semantics, which is the
idiom the source is written in (`@validator` with a `values` dict of
previously validated fields, `pre=True`, `env=` keys on `Field`):

* a field whose raw input is absent takes its declared default and its
  validators do not run (none of the validators sets `always=True`);
* a field whose raw input is present (even as the empty string) runs its
  pre-validators in declaration order, each feeding the next, then the
  declared-type coercion and `gt` constraint;
* a validator that raises `ValueError` records an error for that field;
  validation continues with the remaining fields and all per-field errors
  are aggregated into one `ValidationError`;
* `values` passed to a validator holds the previously declared fields that
  validated successfully.

Python values flowing through validators are dynamically typed, so they are
modelled by the `PyVal` sum type.  The class body assigns the attribute
`aws_rekognition_face_detect_attributes` four times (lines 105-126 of the
source); in a Python class body the later assignments shadow the earlier
ones, so exactly one field of that name exists, with the declaration of
lines 120-126: type `Optional[int]`, default
`SettingsDefaults.AWS_REKOGNITION_FACE_DETECT_THRESHOLD`, constraint `gt=0`,
environment key `AWS_REKOGNITION_FACE_DETECT_THRESHOLD`.  All three
validators registered against that attribute name apply to this single
field, chained in definition order.  The embedding reproduces this
shadowing faithfully.

The allowed-region list (`aws_regions`, sourced from an EC2
`describe_regions` call at import time) is treated as an injected
parameter, exactly as the specification's data model prescribes for the
AllowedRegionSet.
-/

/-- A dynamically typed Python value as it flows through the pydantic
pre-validators of `conf.py`: `None`, a string, an int, a bool, or the
list of region names held by the `aws_regions` field. -/
inductive PyVal where
  | none
  | str (s : String)
  | int (n : Int)
  | bool (b : Bool)
  | strList (l : List String)
  deriving DecidableEq

/-- Rendering of a `PyVal` inside a Python f-string, as in
f"aws_region \x7bv\x7d not in aws_regions". Only the `str` case is
reachable in this program (the validated value always comes from an
environment string). -/
def pyStr : PyVal → String
  | PyVal.none => "None"
  | PyVal.str s => s
  | PyVal.int n => toString n
  | PyVal.bool b => if b then "True" else "False"
  | PyVal.strList _ => "list"

/-- Python `None` / `str` alternatives (`Optional[str]` defaults) injected
into the dynamic value world. -/
def pyOfOptStr : Option String → PyVal
  | Option.none => PyVal.none
  | Option.some s => PyVal.str s

namespace SettingsDefaults

/-- SettingsDefaults.DEBUG_MODE -/
def DEBUG_MODE : Bool := false

/-- SettingsDefaults.AWS_PROFILE (Python `None`) -/
def AWS_PROFILE : Option String := Option.none

/-- SettingsDefaults.AWS_REGION -/
def AWS_REGION : String := "us-east-1"

/-- SettingsDefaults.AWS_DYNAMODB_TABLE_ID -/
def AWS_DYNAMODB_TABLE_ID : String := "rekognition"

/-- SettingsDefaults.AWS_REKOGNITION_COLLECTION_ID, defined in the source
as `AWS_DYNAMODB_TABLE_ID + "-collection"`. -/
def AWS_REKOGNITION_COLLECTION_ID : String := AWS_DYNAMODB_TABLE_ID ++ "-collection"

/-- SettingsDefaults.AWS_REKOGNITION_FACE_DETECT_MAX_FACES_COUNT -/
def AWS_REKOGNITION_FACE_DETECT_MAX_FACES_COUNT : Int := 10

/-- SettingsDefaults.AWS_REKOGNITION_FACE_DETECT_THRESHOLD -/
def AWS_REKOGNITION_FACE_DETECT_THRESHOLD : Int := 10

/-- SettingsDefaults.AWS_REKOGNITION_FACE_DETECT_ATTRIBUTES -/
def AWS_REKOGNITION_FACE_DETECT_ATTRIBUTES : String := "DEFAULT"

/-- SettingsDefaults.AWS_REKOGNITION_FACE_DETECT_QUALITY_FILTER -/
def AWS_REKOGNITION_FACE_DETECT_QUALITY_FILTER : String := "AUTO"

/-- SettingsDefaults.LANGCHAIN_MEMORY_KEY -/
def LANGCHAIN_MEMORY_KEY : String := "chat_history"

/-- SettingsDefaults.OPENAI_API_ORGANIZATION (Python `None`) -/
def OPENAI_API_ORGANIZATION : Option String := Option.none

/-- SettingsDefaults.OPENAI_API_KEY (Python `None`) -/
def OPENAI_API_KEY : Option String := Option.none

/-- SettingsDefaults.OPENAI_ENDPOINT_IMAGE_N -/
def OPENAI_ENDPOINT_IMAGE_N : Int := 4

/-- SettingsDefaults.OPENAI_ENDPOINT_IMAGE_SIZE -/
def OPENAI_ENDPOINT_IMAGE_SIZE : String := "1024x768"

/-- SettingsDefaults.PINECONE_API_KEY (Python `None`) -/
def PINECONE_API_KEY : Option String := Option.none

end SettingsDefaults

/-- Python `str.isspace` characters as far as this program can meet them:
the ASCII whitespace stripped by `int()` around a numeric literal. -/
def pyIsSpace (c : Char) : Bool :=
  c = ' ' ∨ c = '\t' ∨ c = '\n' ∨ c = '\r'

/-- Python whitespace stripping, as `int()` applies to its string
argument. -/
def pyStrip (s : String) : String :=
  String.mk (((s.data.dropWhile pyIsSpace).reverse.dropWhile pyIsSpace).reverse)

/-- Python `str.lower()`; the values compared in this program are ASCII,
for which `Char.toLower` agrees with Python. -/
def pyLower (s : String) : String :=
  String.mk (s.data.map Char.toLower)

/-- Digits of a Python base-10 integer literal: a non-empty run of ASCII
digits, folded into a natural number.  Python additionally accepts
underscore digit-group separators such as "1_000"; no claim exercises
them and they are not modelled. -/
def pyDigits : List Char → Option Nat
  | [] => Option.none
  | cs =>
    if cs.all Char.isDigit then
      Option.some (cs.foldl (fun acc c => acc * 10 + (c.toNat - 48)) 0)
    else
      Option.none

/-- Python `int(s)` on a string: strip surrounding whitespace, allow one
leading sign, then require a non-empty digit run; `Option.none` models the
`ValueError` raised on malformed input. -/
def pyIntOfString : String → Option Int
  | s =>
    match (pyStrip s).toList with
    | [] => Option.none
    | '+' :: rest => (pyDigits rest).map Int.ofNat
    | '-' :: rest => (pyDigits rest).map (fun n => -(Int.ofNat n))
    | cs => (pyDigits cs).map Int.ofNat

/-- Python `int(v)` applied to a dynamic value, as the validators of
`conf.py` do in their `return int(v)` lines.  An `Except.error` models the
exception raised: `ValueError` for a malformed string, `TypeError` for
`None` or a list.  Python `bool` is an `int` subclass, so `int(True) = 1`. -/
def pyIntCall : PyVal → Except String PyVal
  | PyVal.int n => Except.ok (PyVal.int n)
  | PyVal.bool b => Except.ok (PyVal.int (if b then 1 else 0))
  | PyVal.str s =>
    match pyIntOfString s with
    | Option.some n => Except.ok (PyVal.int n)
    | Option.none => Except.error ("invalid literal for int() with base 10: " ++ s)
  | PyVal.none => Except.error "int() argument must be a string or a number, not NoneType"
  | PyVal.strList _ => Except.error "int() argument must be a string or a number, not list"

/-- Coercion helper `empty_str_to_bool_default(v, default)` of `conf.py`:
absent (`None`) or empty raw input gives the default, otherwise the
lower-cased value is tested for membership in the permissive-true list. -/
def empty_str_to_bool_default (v : Option String) (default : Bool) : Bool :=
  match v with
  | Option.none => default
  | Option.some s =>
    if s = "" then default
    else decide (pyLower s ∈ ["true", "1", "t", "y", "yes"])

/-- Coercion helper `empty_str_to_int_default(v, default)` of `conf.py`:
absent or empty raw input gives the default; otherwise `int(v)` is
attempted and a `ValueError` falls back to the default. -/
def empty_str_to_int_default (v : Option String) (default : Int) : Int :=
  match v with
  | Option.none => default
  | Option.some s =>
    if s = "" then default
    else
      match pyIntOfString s with
      | Option.some n => n
      | Option.none => default

/-- Association lookup in the `values` dict that pydantic v1 passes to a
validator: used to embed both the membership test `"aws_regions" in values`
and the subscript `values["aws_regions"]`. -/
def lookupValue (values : List (String × PyVal)) (key : String) : Option PyVal :=
  (values.find? (fun p => p.1 == key)).map (fun p => p.2)

/-- Python `v in container` where the container is the `aws_regions` value,
a list of strings; equality of a non-string against a string is `False` in
Python, so only a `str` can be a member.  A non-list container would raise
`TypeError` in Python; it is unreachable here because `aws_regions` always
holds the injected region list. -/
def pyValInList (v : PyVal) (container : PyVal) : Bool :=
  match container, v with
  | PyVal.strList l, PyVal.str s => decide (s ∈ l)
  | _, _ => false

/-- Validator `validate_aws_profile` (conf.py lines 195-201). -/
def validate_aws_profile (v : PyVal) : Except String PyVal :=
  if v = PyVal.none ∨ v = PyVal.str "" then
    Except.ok (pyOfOptStr SettingsDefaults.AWS_PROFILE)
  else Except.ok v

/-- Validator `validate_aws_region` (conf.py lines 203-211): absent or
empty input becomes the default region; otherwise, when the already
validated `values` carry an `aws_regions` entry, membership of the value in
that list is required, a failure raising
`OpenAIAPIValueError(f"aws_region \x7bv\x7d not in aws_regions")`; when the
entry is missing the value is accepted unchecked. -/
def validate_aws_region (v : PyVal) (values : List (String × PyVal)) : Except String PyVal :=
  if v = PyVal.none ∨ v = PyVal.str "" then
    Except.ok (PyVal.str SettingsDefaults.AWS_REGION)
  else
    match lookupValue values "aws_regions" with
    | Option.some regions =>
      if pyValInList v regions then Except.ok v
      else Except.error ("aws_region " ++ pyStr v ++ " not in aws_regions")
    | Option.none => Except.ok v

/-- Validator `validate_table_id` (conf.py lines 213-218). -/
def validate_table_id (v : PyVal) : Except String PyVal :=
  if v = PyVal.none ∨ v = PyVal.str "" then
    Except.ok (PyVal.str SettingsDefaults.AWS_DYNAMODB_TABLE_ID)
  else Except.ok v

/-- Validator `validate_collection_id` (conf.py lines 220-225). -/
def validate_collection_id (v : PyVal) : Except String PyVal :=
  if v = PyVal.none ∨ v = PyVal.str "" then
    Except.ok (PyVal.str SettingsDefaults.AWS_REKOGNITION_COLLECTION_ID)
  else Except.ok v

/-- Validator `validate_face_detect_attributes` (conf.py lines 227-232). -/
def validate_face_detect_attributes (v : PyVal) : Except String PyVal :=
  if v = PyVal.none ∨ v = PyVal.str "" then
    Except.ok (PyVal.str SettingsDefaults.AWS_REKOGNITION_FACE_DETECT_ATTRIBUTES)
  else Except.ok v

/-- Validator `parse_debug_mode` (conf.py lines 234-241).  `v.lower()` on a
value that is neither `bool`, `None`, empty, nor a string would raise
`AttributeError`; unreachable from environment input, which is a string. -/
def parse_debug_mode (v : PyVal) : Except String PyVal :=
  match v with
  | PyVal.bool b => Except.ok (PyVal.bool b)
  | PyVal.str s =>
    if s = "" then Except.ok (PyVal.bool SettingsDefaults.DEBUG_MODE)
    else Except.ok (PyVal.bool (decide (pyLower s ∈ ["true", "1", "t", "y", "yes"])))
  | PyVal.none => Except.ok (PyVal.bool SettingsDefaults.DEBUG_MODE)
  | _ => Except.error "AttributeError: lower"

/-- Validator `check_face_detect_max_faces_count` (conf.py lines 243-248):
absent or empty gives the max-faces default, anything else is fed to
`int(v)` with no exception handling. -/
def check_face_detect_max_faces_count (v : PyVal) : Except String PyVal :=
  if v = PyVal.none ∨ v = PyVal.str "" then
    Except.ok (PyVal.int SettingsDefaults.AWS_REKOGNITION_FACE_DETECT_MAX_FACES_COUNT)
  else pyIntCall v

/-- Validator `check_face_detect_threshold` (conf.py lines 250-257).
Python `isinstance(v, int)` is also true for `bool` (a subclass of `int`),
so a bool passes through unchanged. -/
def check_face_detect_threshold (v : PyVal) : Except String PyVal :=
  match v with
  | PyVal.int n => Except.ok (PyVal.int n)
  | PyVal.bool b => Except.ok (PyVal.bool b)
  | _ =>
    if v = PyVal.none ∨ v = PyVal.str "" then
      Except.ok (PyVal.int SettingsDefaults.AWS_REKOGNITION_FACE_DETECT_THRESHOLD)
    else pyIntCall v

/-- Validator `check_langchain_memory_key` (conf.py lines 259-266): note
the final `return int(v)` on a field whose declared type is
`Optional[str]`. -/
def check_langchain_memory_key (v : PyVal) : Except String PyVal :=
  match v with
  | PyVal.int n => Except.ok (PyVal.int n)
  | PyVal.bool b => Except.ok (PyVal.bool b)
  | _ =>
    if v = PyVal.none ∨ v = PyVal.str "" then
      Except.ok (PyVal.str SettingsDefaults.LANGCHAIN_MEMORY_KEY)
    else pyIntCall v

/-- Validator `check_openai_api_organization` (conf.py lines 268-275). -/
def check_openai_api_organization (v : PyVal) : Except String PyVal :=
  match v with
  | PyVal.int n => Except.ok (PyVal.int n)
  | PyVal.bool b => Except.ok (PyVal.bool b)
  | _ =>
    if v = PyVal.none ∨ v = PyVal.str "" then
      Except.ok (pyOfOptStr SettingsDefaults.OPENAI_API_ORGANIZATION)
    else pyIntCall v

/-- Validator `check_openai_api_key` (conf.py lines 277-284). -/
def check_openai_api_key (v : PyVal) : Except String PyVal :=
  match v with
  | PyVal.int n => Except.ok (PyVal.int n)
  | PyVal.bool b => Except.ok (PyVal.bool b)
  | _ =>
    if v = PyVal.none ∨ v = PyVal.str "" then
      Except.ok (pyOfOptStr SettingsDefaults.OPENAI_API_KEY)
    else pyIntCall v

/-- Validator `check_openai_endpoint_image_n` (conf.py lines 286-293):
the final `return int(v)` has no exception handling, so a malformed
integer raises `ValueError` instead of falling back to the default. -/
def check_openai_endpoint_image_n (v : PyVal) : Except String PyVal :=
  match v with
  | PyVal.int n => Except.ok (PyVal.int n)
  | PyVal.bool b => Except.ok (PyVal.bool b)
  | _ =>
    if v = PyVal.none ∨ v = PyVal.str "" then
      Except.ok (PyVal.int SettingsDefaults.OPENAI_ENDPOINT_IMAGE_N)
    else pyIntCall v

/-- Validator `check_openai_endpoint_image_size` (conf.py lines 295-302). -/
def check_openai_endpoint_image_size (v : PyVal) : Except String PyVal :=
  match v with
  | PyVal.int n => Except.ok (PyVal.int n)
  | PyVal.bool b => Except.ok (PyVal.bool b)
  | _ =>
    if v = PyVal.none ∨ v = PyVal.str "" then
      Except.ok (PyVal.str SettingsDefaults.OPENAI_ENDPOINT_IMAGE_SIZE)
    else pyIntCall v

/-- Validator `check_pinecone_api_key` (conf.py lines 304-311). -/
def check_pinecone_api_key (v : PyVal) : Except String PyVal :=
  match v with
  | PyVal.int n => Except.ok (PyVal.int n)
  | PyVal.bool b => Except.ok (PyVal.bool b)
  | _ =>
    if v = PyVal.none ∨ v = PyVal.str "" then
      Except.ok (pyOfOptStr SettingsDefaults.PINECONE_API_KEY)
    else pyIntCall v

/-- The three pre-validators registered against the (shadowed) attribute
name `aws_rekognition_face_detect_attributes`, chained in their definition
order (conf.py lines 227, 243, 250), as pydantic v1 runs multiple
validators of one field. -/
def face_detect_attributes_chain (v : PyVal) : Except String PyVal :=
  Except.bind (validate_face_detect_attributes v) (fun v1 =>
    Except.bind (check_face_detect_max_faces_count v1) check_face_detect_threshold)

/-- Pydantic v1 lax coercion to a declared `Optional[str]` field type:
`None` passes, a string passes, numbers (including `bool`, an `int`
subclass) are converted with `str(...)`, a list is rejected. -/
def coerceOptStr : PyVal → Except String PyVal
  | PyVal.none => Except.ok PyVal.none
  | PyVal.str s => Except.ok (PyVal.str s)
  | PyVal.int n => Except.ok (PyVal.str (toString n))
  | PyVal.bool b => Except.ok (PyVal.str (if b then "True" else "False"))
  | PyVal.strList _ => Except.error "str type expected"

/-- Pydantic v1 lax coercion to a declared `Optional[bool]` field type. -/
def coerceOptBool : PyVal → Except String PyVal
  | PyVal.none => Except.ok PyVal.none
  | PyVal.bool b => Except.ok (PyVal.bool b)
  | PyVal.int n =>
    if n = 0 then Except.ok (PyVal.bool false)
    else if n = 1 then Except.ok (PyVal.bool true)
    else Except.error "value could not be parsed to a boolean"
  | PyVal.str s =>
    if pyLower s ∈ ["0", "off", "f", "false", "n", "no"] then Except.ok (PyVal.bool false)
    else if pyLower s ∈ ["1", "on", "t", "true", "y", "yes"] then Except.ok (PyVal.bool true)
    else Except.error "value could not be parsed to a boolean"
  | PyVal.strList _ => Except.error "value could not be parsed to a boolean"

/-- Pydantic v1 lax coercion to a declared `Optional[int]` field type
carrying a `gt=limit` constraint (the shadowed face-detect field declares
`gt=0`). -/
def coerceOptIntGt (limit : Int) : PyVal → Except String PyVal
  | PyVal.none => Except.ok PyVal.none
  | PyVal.int n =>
    if limit < n then Except.ok (PyVal.int n)
    else Except.error ("ensure this value is greater than " ++ toString limit)
  | PyVal.bool b =>
    if limit < (if b then (1 : Int) else 0) then Except.ok (PyVal.int (if b then 1 else 0))
    else Except.error ("ensure this value is greater than " ++ toString limit)
  | PyVal.str s =>
    match pyIntOfString s with
    | Option.some n =>
      if limit < n then Except.ok (PyVal.int n)
      else Except.error ("ensure this value is greater than " ++ toString limit)
    | Option.none => Except.error "value is not a valid integer"
  | PyVal.strList _ => Except.error "value is not a valid integer"

/-- The raw environment: an association list from environment-variable
name to raw string value, absence meaning the variable is unset. -/
def RawEnv := List (String × String)

/-- Lookup of an environment variable in the raw environment. -/
def envLookup (env : RawEnv) (key : String) : Option String :=
  (List.find? (fun p => p.1 == key) env).map (fun p => p.2)

/-- Pydantic v1 handling of one `Settings` field that consults its own
environment key only: an absent raw value yields the declared default with
no validation (no validator of `conf.py` sets `always=True`); a present raw
value (a string, possibly empty) runs the field's pre-validator chain and
then the declared-type coercion. -/
def runField (env : RawEnv) (key : String) (defaultVal : PyVal)
    (chain : PyVal → Except String PyVal) (coerce : PyVal → Except String PyVal) :
    Except String PyVal :=
  match envLookup env key with
  | Option.none => Except.ok defaultVal
  | Option.some s => Except.bind (chain (PyVal.str s)) coerce

/-- Outcome of the `debug_mode` field (conf.py lines 81-86, validator at
234). -/
def resultDebugMode (env : RawEnv) : Except String PyVal :=
  runField env "DEBUG_MODE" (PyVal.bool SettingsDefaults.DEBUG_MODE)
    parse_debug_mode coerceOptBool

/-- Outcome of the `aws_profile` field (conf.py lines 87-90, validator at
195). -/
def resultAwsProfile (env : RawEnv) : Except String PyVal :=
  runField env "AWS_PROFILE" (pyOfOptStr SettingsDefaults.AWS_PROFILE)
    validate_aws_profile coerceOptStr

/-- Outcome of the `aws_regions` field (conf.py line 91): the injected
allowed-region list, which has no validator and always succeeds. -/
def resultAwsRegions (allowedRegions : List String) : Except String PyVal :=
  Except.ok (PyVal.strList allowedRegions)

/-- The pydantic v1 `values` dict visible to the `aws_region` validator:
the fields declared before `aws_region` that validated successfully. -/
def priorValues (env : RawEnv) (allowedRegions : List String) : List (String × PyVal) :=
  List.filterMap
    (fun p =>
      match p.2 with
      | Except.ok v => Option.some (p.1, v)
      | Except.error _ => Option.none)
    [("debug_mode", resultDebugMode env),
     ("aws_profile", resultAwsProfile env),
     ("aws_regions", resultAwsRegions allowedRegions)]

/-- Outcome of the `aws_region` field (conf.py lines 92-95, validator at
203): an absent raw value takes the default with no membership check; a
present one runs `validate_aws_region` against the previously validated
`values`. -/
def resultAwsRegion (env : RawEnv) (allowedRegions : List String) : Except String PyVal :=
  match envLookup env "AWS_REGION" with
  | Option.none => Except.ok (PyVal.str SettingsDefaults.AWS_REGION)
  | Option.some s =>
    Except.bind (validate_aws_region (PyVal.str s) (priorValues env allowedRegions)) coerceOptStr

/-- Outcome of the `aws_dynamodb_table_id` field (conf.py lines 96-99,
validator at 213). -/
def resultTableId (env : RawEnv) : Except String PyVal :=
  runField env "AWS_DYNAMODB_TABLE_ID" (PyVal.str SettingsDefaults.AWS_DYNAMODB_TABLE_ID)
    validate_table_id coerceOptStr

/-- Outcome of the `aws_rekognition_collection_id` field (conf.py lines
100-103, validator at 220). -/
def resultCollectionId (env : RawEnv) : Except String PyVal :=
  runField env "AWS_REKOGNITION_COLLECTION_ID"
    (PyVal.str SettingsDefaults.AWS_REKOGNITION_COLLECTION_ID)
    validate_collection_id coerceOptStr

/-- Outcome of the single surviving `aws_rekognition_face_detect_attributes`
field (conf.py lines 120-126, the last of the four shadowed declarations):
environment key `AWS_REKOGNITION_FACE_DETECT_THRESHOLD`, default the
threshold default, the three registered validators chained, and the
declared `Optional[int]` type with its `gt=0` constraint. -/
def resultFaceDetectAttributes (env : RawEnv) : Except String PyVal :=
  runField env "AWS_REKOGNITION_FACE_DETECT_THRESHOLD"
    (PyVal.int SettingsDefaults.AWS_REKOGNITION_FACE_DETECT_THRESHOLD)
    face_detect_attributes_chain (coerceOptIntGt 0)

/-- Outcome of the `langchain_memory_key` field (conf.py line 127,
validator at 259). -/
def resultLangchainMemoryKey (env : RawEnv) : Except String PyVal :=
  runField env "LANGCHAIN_MEMORY_KEY" (PyVal.str SettingsDefaults.LANGCHAIN_MEMORY_KEY)
    check_langchain_memory_key coerceOptStr

/-- Outcome of the `openai_api_organization` field (conf.py lines 128-130,
validator at 268). -/
def resultOpenaiApiOrganization (env : RawEnv) : Except String PyVal :=
  runField env "OPENAI_API_ORGANIZATION" (pyOfOptStr SettingsDefaults.OPENAI_API_ORGANIZATION)
    check_openai_api_organization coerceOptStr

/-- Outcome of the `openai_api_key` field (conf.py line 131, validator at
277). -/
def resultOpenaiApiKey (env : RawEnv) : Except String PyVal :=
  runField env "OPENAI_API_KEY" (pyOfOptStr SettingsDefaults.OPENAI_API_KEY)
    check_openai_api_key coerceOptStr

/-- Outcome of the `openai_endpoint_image_n` field (conf.py lines 132-134,
validator at 286).  The declared type in the source is `Optional[str]`
while the default is the integer 4; pydantic v1 does not validate
defaults, so the absent case keeps the integer. -/
def resultOpenaiEndpointImageN (env : RawEnv) : Except String PyVal :=
  runField env "OPENAI_ENDPOINT_IMAGE_N" (PyVal.int SettingsDefaults.OPENAI_ENDPOINT_IMAGE_N)
    check_openai_endpoint_image_n coerceOptStr

/-- Outcome of the `openai_endpoint_image_size` field (conf.py lines
135-137, validator at 295). -/
def resultOpenaiEndpointImageSize (env : RawEnv) : Except String PyVal :=
  runField env "OPENAI_ENDPOINT_IMAGE_SIZE" (PyVal.str SettingsDefaults.OPENAI_ENDPOINT_IMAGE_SIZE)
    check_openai_endpoint_image_size coerceOptStr

/-- Outcome of the `pinecone_api_key` field (conf.py line 138, validator
at 304). -/
def resultPineconeApiKey (env : RawEnv) : Except String PyVal :=
  runField env "PINECONE_API_KEY" (pyOfOptStr SettingsDefaults.PINECONE_API_KEY)
    check_pinecone_api_key coerceOptStr

/-- All field outcomes of one `Settings()` construction, in field
declaration order (the four shadowed declarations collapse to the single
field at the position of their block). -/
def buildResults (env : RawEnv) (allowedRegions : List String) :
    List (String × Except String PyVal) :=
  [("debug_mode", resultDebugMode env),
   ("aws_profile", resultAwsProfile env),
   ("aws_regions", resultAwsRegions allowedRegions),
   ("aws_region", resultAwsRegion env allowedRegions),
   ("aws_dynamodb_table_id", resultTableId env),
   ("aws_rekognition_collection_id", resultCollectionId env),
   ("aws_rekognition_face_detect_attributes", resultFaceDetectAttributes env),
   ("langchain_memory_key", resultLangchainMemoryKey env),
   ("openai_api_organization", resultOpenaiApiOrganization env),
   ("openai_api_key", resultOpenaiApiKey env),
   ("openai_endpoint_image_n", resultOpenaiEndpointImageN env),
   ("openai_endpoint_image_size", resultOpenaiEndpointImageSize env),
   ("pinecone_api_key", resultPineconeApiKey env)]

/-- The per-field failures of a construction, in field order: the content
of the aggregate `ValidationError` that `conf.py` wraps into
`OpenAIAPIConfigurationError` at module level (lines 314-318). -/
def errsOf (rs : List (String × Except String PyVal)) : List (String × String) :=
  List.filterMap
    (fun p =>
      match p.2 with
      | Except.error e => Option.some (p.1, e)
      | Except.ok _ => Option.none)
    rs

/-- Lookup of a named field outcome. -/
def lookupResult (rs : List (String × Except String PyVal)) (name : String) :
    Option (Except String PyVal) :=
  (List.find? (fun p => p.1 == name) rs).map (fun p => p.2)

/-- The value of a successful field outcome; the filler for the impossible
cases is only reached when a failure slipped past the aggregate check. -/
def okVal (r : Option (Except String PyVal)) : PyVal :=
  match r with
  | Option.some (Except.ok v) => v
  | _ => PyVal.none

/-- The validated configuration snapshot: the fields of the pydantic
`Settings` model, one slot per surviving field declaration (the four
shadowed `aws_rekognition_face_detect_attributes` declarations are one
field). -/
structure Settings where
  debug_mode : PyVal
  aws_profile : PyVal
  aws_regions : PyVal
  aws_region : PyVal
  aws_dynamodb_table_id : PyVal
  aws_rekognition_collection_id : PyVal
  aws_rekognition_face_detect_attributes : PyVal
  langchain_memory_key : PyVal
  openai_api_organization : PyVal
  openai_api_key : PyVal
  openai_endpoint_image_n : PyVal
  openai_endpoint_image_size : PyVal
  pinecone_api_key : PyVal
  deriving DecidableEq

/-- One `Settings()` construction (conf.py module level, lines 314-318):
all field validators run, the per-field failures are aggregated, and the
result is the full snapshot when no field failed, or the aggregate error
listing every failing field with its message. -/
def buildSettings (env : RawEnv) (allowedRegions : List String) :
    Except (List (String × String)) Settings :=
  let rs := buildResults env allowedRegions
  match errsOf rs with
  | [] =>
    Except.ok
      { debug_mode := okVal (lookupResult rs "debug_mode")
        aws_profile := okVal (lookupResult rs "aws_profile")
        aws_regions := okVal (lookupResult rs "aws_regions")
        aws_region := okVal (lookupResult rs "aws_region")
        aws_dynamodb_table_id := okVal (lookupResult rs "aws_dynamodb_table_id")
        aws_rekognition_collection_id := okVal (lookupResult rs "aws_rekognition_collection_id")
        aws_rekognition_face_detect_attributes :=
          okVal (lookupResult rs "aws_rekognition_face_detect_attributes")
        langchain_memory_key := okVal (lookupResult rs "langchain_memory_key")
        openai_api_organization := okVal (lookupResult rs "openai_api_organization")
        openai_api_key := okVal (lookupResult rs "openai_api_key")
        openai_endpoint_image_n := okVal (lookupResult rs "openai_endpoint_image_n")
        openai_endpoint_image_size := okVal (lookupResult rs "openai_endpoint_image_size")
        pinecone_api_key := okVal (lookupResult rs "pinecone_api_key") }
  | errs => Except.error errs

namespace Settings

/-- Pydantic configuration of the model (conf.py lines 189-193): the
model is frozen. -/
def Config.frozen : Bool := true

/-- Field update by attribute name, the effect `object.__setattr__` would
have on a non-frozen model; reached only when `Config.frozen` is false. -/
def setField (s : Settings) (name : String) (v : PyVal) : Settings :=
  if name = "debug_mode" then { s with debug_mode := v }
  else if name = "aws_profile" then { s with aws_profile := v }
  else if name = "aws_regions" then { s with aws_regions := v }
  else if name = "aws_region" then { s with aws_region := v }
  else if name = "aws_dynamodb_table_id" then { s with aws_dynamodb_table_id := v }
  else if name = "aws_rekognition_collection_id" then { s with aws_rekognition_collection_id := v }
  else if name = "aws_rekognition_face_detect_attributes" then
    { s with aws_rekognition_face_detect_attributes := v }
  else if name = "langchain_memory_key" then { s with langchain_memory_key := v }
  else if name = "openai_api_organization" then { s with openai_api_organization := v }
  else if name = "openai_api_key" then { s with openai_api_key := v }
  else if name = "openai_endpoint_image_n" then { s with openai_endpoint_image_n := v }
  else if name = "openai_endpoint_image_size" then { s with openai_endpoint_image_size := v }
  else if name = "pinecone_api_key" then { s with pinecone_api_key := v }
  else s

/-- Pydantic attribute assignment on a constructed model: with
`Config.frozen = True` (as `conf.py` sets, lines 189-193) every assignment
raises a `TypeError` and the snapshot is left untouched; only a non-frozen
model would be updated. -/
def trySetAttr (s : Settings) (name : String) (v : PyVal) : Except String Settings :=
  if Config.frozen then
    Except.error "Settings is immutable and does not support attribute assignment"
  else
    Except.ok (setField s name v)

end Settings

/-- The snapshot produced by a construction in which every field keeps its
default except `aws_region`, which holds the given region: the region list
is the injected one, the shadowed face-detect field holds the threshold
default 10 and `openai_endpoint_image_n` keeps its unvalidated integer
default 4. -/
def defaultsSnapshotWithRegion (allowedRegions : List String) (region : String) : Settings :=
  { debug_mode := PyVal.bool false
    aws_profile := PyVal.none
    aws_regions := PyVal.strList allowedRegions
    aws_region := PyVal.str region
    aws_dynamodb_table_id := PyVal.str "rekognition"
    aws_rekognition_collection_id := PyVal.str "rekognition-collection"
    aws_rekognition_face_detect_attributes := PyVal.int 10
    langchain_memory_key := PyVal.str "chat_history"
    openai_api_organization := PyVal.none
    openai_api_key := PyVal.none
    openai_endpoint_image_n := PyVal.int 4
    openai_endpoint_image_size := PyVal.str "1024x768"
    pinecone_api_key := PyVal.none }

lemma mem_errsOf {rs : List (String × Except String PyVal)} {n m : String}
    (h : (n, Except.error m) ∈ rs) : (n, m) ∈ errsOf rs :=
  List.mem_filterMap.mpr ⟨(n, Except.error m), h, rfl⟩

lemma errsOf_ne_nil {rs : List (String × Except String PyVal)} {n m : String}
    (h : (n, m) ∈ errsOf rs) : errsOf rs ≠ [] := by
  intro hnil
  rw [hnil] at h
  exact absurd h (List.not_mem_nil _)

lemma buildSettings_eq_error (env : RawEnv) (allowedRegions : List String)
    (h : errsOf (buildResults env allowedRegions) ≠ []) :
    buildSettings env allowedRegions
      = Except.error (errsOf (buildResults env allowedRegions)) := by
  unfold buildSettings
  cases herr : errsOf (buildResults env allowedRegions) with
  | nil => exact absurd herr h
  | cons a l => simp [herr]

lemma lookupResult_mem {rs : List (String × Except String PyVal)} {n : String}
    {r : Except String PyVal}
    (h : lookupResult rs n = Option.some r) : (n, r) ∈ rs := by
  unfold lookupResult at h
  cases hf : List.find? (fun p => p.1 == n) rs with
  | none => rw [hf] at h; cases h
  | some p =>
    rw [hf] at h
    obtain ⟨p1, p2⟩ := p
    have hmem := List.mem_of_find?_eq_some hf
    have hpred := List.find?_some hf
    have hp1 : p1 = n := by simpa using hpred
    have hp2 : p2 = r := Option.some.inj h
    rw [hp1, hp2] at hmem
    exact hmem

lemma lookupValue_priorValues (env : RawEnv) (allowedRegions : List String) :
    lookupValue (priorValues env allowedRegions) "aws_regions"
      = Option.some (PyVal.strList allowedRegions) := by
  unfold priorValues resultAwsRegions
  cases h1 : resultDebugMode env <;> cases h2 : resultAwsProfile env <;>
    simp [h1, h2, lookupValue]

lemma resultAwsRegion_not_mem (env : RawEnv) (allowedRegions : List String) (v : String)
    (hv : v ≠ "") (henv : envLookup env "AWS_REGION" = Option.some v)
    (hmem : v ∉ allowedRegions) :
    resultAwsRegion env allowedRegions
      = Except.error ("aws_region " ++ v ++ " not in aws_regions") := by
  unfold resultAwsRegion
  rw [henv]
  unfold validate_aws_region
  rw [lookupValue_priorValues]
  simp [hv, pyValInList, hmem, pyStr, Except.bind]

lemma resultAwsRegion_mem (env : RawEnv) (allowedRegions : List String) (v : String)
    (hv : v ≠ "") (henv : envLookup env "AWS_REGION" = Option.some v)
    (hmem : v ∈ allowedRegions) :
    resultAwsRegion env allowedRegions = Except.ok (PyVal.str v) := by
  unfold resultAwsRegion
  rw [henv]
  unfold validate_aws_region
  rw [lookupValue_priorValues]
  simp [hv, pyValInList, hmem, Except.bind, coerceOptStr]

/-- C3: the boolean coercion function `empty_str_to_bool_default` returns
the default when the raw value is absent (`None`) or the empty string;
otherwise it returns true if and only if the lower-cased raw value is one
of "true", "1", "t", "y", "yes", and hence false for every other
non-empty string, raising no error. -/
theorem C3_bool_coercion (s : String) (default : Bool) (h : s ≠ "") :
    empty_str_to_bool_default Option.none default = default
    ∧ empty_str_to_bool_default (Option.some "") default = default
    ∧ (empty_str_to_bool_default (Option.some s) default = true
        ↔ pyLower s ∈ ["true", "1", "t", "y", "yes"]) := by
  refine ⟨rfl, rfl, ?_⟩
  simp [empty_str_to_bool_default, h]

theorem C3_bool_coercion_witness :
    empty_str_to_bool_default Option.none false = false
    ∧ empty_str_to_bool_default (Option.some "") false = false
    ∧ (empty_str_to_bool_default (Option.some "True") false = true
        ↔ pyLower "True" ∈ ["true", "1", "t", "y", "yes"]) :=
  C3_bool_coercion "True" false (by decide)

/-- C5: the source sets `frozen = True` in the pydantic `Config` of
`Settings`, so every attribute assignment on a constructed snapshot is
rejected by pydantic (modelled by `Settings.trySetAttr`) and no updated
snapshot is ever produced. -/
theorem C5_frozen_snapshot (s : Settings) (name : String) (v : PyVal) :
    Settings.trySetAttr s name v
      = Except.error "Settings is immutable and does not support attribute assignment" := rfl

/-- C2 (refuting evaluation): the claim says every recognized setting
supplied as the empty string yields its registry default with construction
succeeding; but supplying AWS_REKOGNITION_FACE_DETECT_THRESHOLD as the
empty string makes the chained validators of the shadowed field turn the
empty string into the string "DEFAULT" and then call `int("DEFAULT")`,
which raises, so construction fails.  With the raw input absent instead,
every setting does equal its registry default. -/
theorem C2_threshold_empty_string_errors :
    buildSettings [("AWS_REKOGNITION_FACE_DETECT_THRESHOLD", "")] []
      = Except.error [("aws_rekognition_face_detect_attributes",
          "invalid literal for int() with base 10: DEFAULT")]
    ∧ buildSettings [] [] = Except.ok (defaultsSnapshotWithRegion [] "us-east-1") :=
  ⟨rfl, rfl⟩

/-- C6 (refuting evaluation): supplying
AWS_REKOGNITION_FACE_DETECT_MAX_FACES_COUNT="0" leaves construction
succeeding with the all-defaults snapshot, because the max-faces field
declaration is shadowed and its environment key is not read by any field;
only the surviving field, fed by AWS_REKOGNITION_FACE_DETECT_THRESHOLD,
enforces the gt=0 constraint. -/
theorem C6_max_faces_key_ignored :
    buildSettings [("AWS_REKOGNITION_FACE_DETECT_MAX_FACES_COUNT", "0")] []
      = Except.ok (defaultsSnapshotWithRegion [] "us-east-1")
    ∧ buildSettings [("AWS_REKOGNITION_FACE_DETECT_THRESHOLD", "0")] []
      = Except.error [("aws_rekognition_face_detect_attributes",
          "ensure this value is greater than 0")] :=
  ⟨rfl, rfl⟩

/-- C7 (refuting evaluation): supplying OPENAI_ENDPOINT_IMAGE_N as
"notanumber" makes construction fail, because `check_openai_endpoint_image_n`
ends in a bare `int(v)` with no exception handling; the coercion helper
`empty_str_to_int_default`, which the claim describes, would have fallen
back to the default 4, but it is never invoked for this field. -/
theorem C7_image_n_malformed_errors :
    buildSettings [("OPENAI_ENDPOINT_IMAGE_N", "notanumber")] []
      = Except.error [("openai_endpoint_image_n",
          "invalid literal for int() with base 10: notanumber")]
    ∧ empty_str_to_int_default (Option.some "notanumber")
        SettingsDefaults.OPENAI_ENDPOINT_IMAGE_N
      = SettingsDefaults.OPENAI_ENDPOINT_IMAGE_N :=
  ⟨rfl, rfl⟩

/-- C8 (refuting evaluation): the string-typed settings are not passed
through unchanged: their validators end in `return int(v)`, so a non-empty
non-numeric string such as "memory" for LANGCHAIN_MEMORY_KEY (or a
dashed key for PINECONE_API_KEY) raises inside the validator and
construction fails instead of carrying the string. -/
theorem C8_string_settings_cast_to_int :
    buildSettings [("LANGCHAIN_MEMORY_KEY", "memory")] []
      = Except.error [("langchain_memory_key",
          "invalid literal for int() with base 10: memory")]
    ∧ buildSettings [("PINECONE_API_KEY", "my-api-key")] []
      = Except.error [("pinecone_api_key",
          "invalid literal for int() with base 10: my-api-key")] :=
  ⟨rfl, rfl⟩

/-- C9 (refuting evaluation): AWS_REKOGNITION_FACE_DETECT_ATTRIBUTES is
not a distinct string-typed setting: the four class-body declarations
shadow down to a single field fed by AWS_REKOGNITION_FACE_DETECT_THRESHOLD,
so with an empty environment the snapshot carries the integer 10 rather
than the string "DEFAULT", and supplying the ATTRIBUTES key changes
nothing. -/
theorem C9_attributes_field_shadowed :
    buildSettings [] [] = Except.ok (defaultsSnapshotWithRegion [] "us-east-1")
    ∧ buildSettings [("AWS_REKOGNITION_FACE_DETECT_ATTRIBUTES", "FOO")] []
      = Except.ok (defaultsSnapshotWithRegion [] "us-east-1")
    ∧ (defaultsSnapshotWithRegion [] "us-east-1").aws_rekognition_face_detect_attributes
      = PyVal.int 10
    ∧ PyVal.int 10 ≠ PyVal.str "DEFAULT"
    ∧ PyVal.int 10 ≠ PyVal.str "FOO" :=
  ⟨rfl, rfl, rfl, by decide, by decide⟩

/-- C10: in `validate_aws_region` the membership check is conditional on
the key "aws_regions" being present in the already-validated `values`:
when the lookup misses, every non-empty value is accepted unchecked, and
the membership error can only be raised when the lookup hits. -/
theorem C10_membership_check_conditional (v : PyVal) (values : List (String × PyVal))
    (hv : ¬(v = PyVal.none ∨ v = PyVal.str "")) :
    (lookupValue values "aws_regions" = Option.none →
      validate_aws_region v values = Except.ok v)
    ∧ ∀ m, validate_aws_region v values = Except.error m →
        lookupValue values "aws_regions" ≠ Option.none := by
  constructor
  · intro hnone
    unfold validate_aws_region
    rw [if_neg hv, hnone]
  · intro m herr hnone
    unfold validate_aws_region at herr
    rw [if_neg hv, hnone] at herr
    cases herr

theorem C10_membership_check_conditional_witness :
    validate_aws_region (PyVal.str "mars-west-1") []
      = Except.ok (PyVal.str "mars-west-1") :=
  (C10_membership_check_conditional (PyVal.str "mars-west-1") [] (by decide)).1 rfl

/-- C4: every field whose own validation fails in a construction attempt
appears, with its message, in the aggregate error the construction
returns: all field validators run and the aggregate reports every failing
field, not only the first one encountered. -/
theorem C4_all_failures_reported (env : RawEnv) (allowedRegions : List String)
    (n m : String)
    (h : lookupResult (buildResults env allowedRegions) n = Option.some (Except.error m)) :
    (n, m) ∈ errsOf (buildResults env allowedRegions)
    ∧ buildSettings env allowedRegions
      = Except.error (errsOf (buildResults env allowedRegions)) := by
  have hmem := lookupResult_mem h
  have hin := mem_errsOf hmem
  exact ⟨hin, buildSettings_eq_error env allowedRegions (errsOf_ne_nil hin)⟩

theorem C4_all_failures_reported_witness :
    (("aws_region", "aws_region mars-west-1 not in aws_regions")
        ∈ errsOf (buildResults
            [("AWS_REGION", "mars-west-1"), ("LANGCHAIN_MEMORY_KEY", "memory")]
            ["us-east-1"])
      ∧ buildSettings [("AWS_REGION", "mars-west-1"), ("LANGCHAIN_MEMORY_KEY", "memory")]
            ["us-east-1"]
        = Except.error (errsOf (buildResults
            [("AWS_REGION", "mars-west-1"), ("LANGCHAIN_MEMORY_KEY", "memory")]
            ["us-east-1"])))
    ∧ (("langchain_memory_key", "invalid literal for int() with base 10: memory")
        ∈ errsOf (buildResults
            [("AWS_REGION", "mars-west-1"), ("LANGCHAIN_MEMORY_KEY", "memory")]
            ["us-east-1"])
      ∧ buildSettings [("AWS_REGION", "mars-west-1"), ("LANGCHAIN_MEMORY_KEY", "memory")]
            ["us-east-1"]
        = Except.error (errsOf (buildResults
            [("AWS_REGION", "mars-west-1"), ("LANGCHAIN_MEMORY_KEY", "memory")]
            ["us-east-1"]))) :=
  ⟨C4_all_failures_reported
      [("AWS_REGION", "mars-west-1"), ("LANGCHAIN_MEMORY_KEY", "memory")] ["us-east-1"]
      "aws_region" "aws_region mars-west-1 not in aws_regions" rfl,
   C4_all_failures_reported
      [("AWS_REGION", "mars-west-1"), ("LANGCHAIN_MEMORY_KEY", "memory")] ["us-east-1"]
      "langchain_memory_key" "invalid literal for int() with base 10: memory" rfl⟩

/-- C1: supplying a non-empty AWS_REGION value that is not a member of
the injected allowed-region list makes construction fail with an
aggregate error containing an entry that names the field aws_region and
the offending value; supplying a non-empty member value makes any
resulting snapshot carry exactly that value as aws_region, and with the
rest of the environment empty the construction does succeed with that
snapshot. -/
theorem C1_region_membership (env : RawEnv) (allowedRegions : List String) (v : String)
    (hv : v ≠ "") (henv : envLookup env "AWS_REGION" = Option.some v) :
    (v ∉ allowedRegions →
      ("aws_region", "aws_region " ++ v ++ " not in aws_regions")
          ∈ errsOf (buildResults env allowedRegions)
      ∧ buildSettings env allowedRegions
          = Except.error (errsOf (buildResults env allowedRegions)))
    ∧ (v ∈ allowedRegions →
      (∀ s, buildSettings env allowedRegions = Except.ok s → s.aws_region = PyVal.str v)
      ∧ buildSettings [("AWS_REGION", v)] allowedRegions
          = Except.ok (defaultsSnapshotWithRegion allowedRegions v)) := by
  constructor
  · intro hnot
    have hreg := resultAwsRegion_not_mem env allowedRegions v hv henv hnot
    have hmem : ("aws_region", Except.error ("aws_region " ++ v ++ " not in aws_regions"))
        ∈ buildResults env allowedRegions := by
      rw [← hreg]
      simp [buildResults]
    have hin := mem_errsOf hmem
    exact ⟨hin, buildSettings_eq_error env allowedRegions (errsOf_ne_nil hin)⟩
  · intro hmem
    constructor
    · intro s hs
      have hreg := resultAwsRegion_mem env allowedRegions v hv henv hmem
      have hlr : lookupResult (buildResults env allowedRegions) "aws_region"
          = Option.some (resultAwsRegion env allowedRegions) := rfl
      cases herr : errsOf (buildResults env allowedRegions) with
      | cons a l =>
        simp only [buildSettings, herr, reduceCtorEq] at hs
      | nil =>
        simp only [buildSettings, herr, Except.ok.injEq] at hs
        subst hs
        show okVal (lookupResult (buildResults env allowedRegions) "aws_region") = PyVal.str v
        rw [hlr, hreg]
        rfl
    · have hr : resultAwsRegion [("AWS_REGION", v)] allowedRegions
          = Except.ok (PyVal.str v) :=
        resultAwsRegion_mem [("AWS_REGION", v)] allowedRegions v hv rfl hmem
      have hbr : buildResults [("AWS_REGION", v)] allowedRegions =
          [("debug_mode", Except.ok (PyVal.bool false)),
           ("aws_profile", Except.ok PyVal.none),
           ("aws_regions", Except.ok (PyVal.strList allowedRegions)),
           ("aws_region", Except.ok (PyVal.str v)),
           ("aws_dynamodb_table_id", Except.ok (PyVal.str "rekognition")),
           ("aws_rekognition_collection_id", Except.ok (PyVal.str "rekognition-collection")),
           ("aws_rekognition_face_detect_attributes", Except.ok (PyVal.int 10)),
           ("langchain_memory_key", Except.ok (PyVal.str "chat_history")),
           ("openai_api_organization", Except.ok PyVal.none),
           ("openai_api_key", Except.ok PyVal.none),
           ("openai_endpoint_image_n", Except.ok (PyVal.int 4)),
           ("openai_endpoint_image_size", Except.ok (PyVal.str "1024x768")),
           ("pinecone_api_key", Except.ok PyVal.none)] := by
        unfold buildResults
        rw [hr]
        rfl
      unfold buildSettings
      rw [hbr]
      rfl

theorem C1_region_membership_witness :
    (("aws_region", "aws_region mars-west-1 not in aws_regions")
        ∈ errsOf (buildResults [("AWS_REGION", "mars-west-1")] ["us-east-1", "eu-west-1"])
      ∧ buildSettings [("AWS_REGION", "mars-west-1")] ["us-east-1", "eu-west-1"]
        = Except.error (errsOf (buildResults [("AWS_REGION", "mars-west-1")]
            ["us-east-1", "eu-west-1"])))
    ∧ buildSettings [("AWS_REGION", "eu-west-1")] ["us-east-1", "eu-west-1"]
        = Except.ok (defaultsSnapshotWithRegion ["us-east-1", "eu-west-1"] "eu-west-1") :=
  ⟨(C1_region_membership [("AWS_REGION", "mars-west-1")] ["us-east-1", "eu-west-1"]
      "mars-west-1" (by decide) rfl).1 (by decide),
   ((C1_region_membership [("AWS_REGION", "eu-west-1")] ["us-east-1", "eu-west-1"]
      "eu-west-1" (by decide) rfl).2 (by decide)).2⟩
